import Mathlib

/-!
Verification of the membership-and-bootstrap core of server/node.go: the
bootstrap protocol, store initialization and validation, the distributed
ID allocator, gossip identity convergence, and the command dispatch path.
Machine integers (roachpb.NodeID, roachpb.StoreID, counter values) are
modelled as Int; fallible operations return Except or a result type that
distinguishes ordinary errors from process-fatal halts (log.Fatal, panic).
-/

/-- StoreIdent as persisted in a storage engine: cluster, node, and store IDs. -/
structure StoreIdent where
  clusterID : String
  nodeID : Int
  storeID : Int
deriving DecidableEq

/-- Modelled from the spec: a storage engine as consumed by node.go (the
storage package is an external collaborator). It carries the persisted
StoreIdent (none when the engine is unformatted, so Start yields the
NotBootstrapped condition) and flags saying whether each consumed
operation (Start, Capacity, Bootstrap, BootstrapRange) succeeds. -/
structure Engine where
  ident : Option StoreIdent
  startOk : Bool
  capacityOk : Bool
  bootstrapOk : Bool
  bootstrapRangeOk : Bool
deriving DecidableEq

/-- A store registered in the Store Registry, keyed by its ident. -/
structure Store where
  ident : StoreIdent
deriving DecidableEq

/-- Node state: ClusterID, Descriptor.NodeID, Descriptor.Address, and the
Store Registry contents in AddStore order. -/
structure NodeState where
  clusterID : String
  nodeID : Int
  address : String
  stores : List Store
deriving DecidableEq

/-- Modelled from the spec: a gossip resolver; GetAddress either yields an
unresolved address (some) or fails (none). -/
structure Resolver where
  address : Option String
deriving DecidableEq

/-- Modelled from the spec: the gossip substrate as consumed by node.go,
with the configured resolvers, the cluster-ID info value readable once
connected (none models a GetInfo error), and success flags for SetStorage
and SetNodeDescriptor. -/
structure GossipState where
  resolvers : List Resolver
  setStorageOk : Bool
  clusterIDInfo : Option String
  setDescriptorOk : Bool
deriving DecidableEq

/-- Modelled from the spec: the key-value collaborator holding the two ID
generator counters; incFails models a failing Increment round trip. -/
structure DB where
  nodeIDGen : Int
  storeIDGen : Int
  incFails : Bool
deriving DecidableEq

/-- The two well-known incrementable counter keys. -/
inductive CounterKey where
  | nodeIDGenerator
  | storeIDGenerator
deriving DecidableEq

/-- Modelled from the spec: Increment on the key-value collaborator is an
atomic increment returning the post-increment value. -/
def DB.inc (db : DB) (key : CounterKey) (inc : Int) : Except String (Int × DB) :=
  if db.incFails then .error "increment failed"
  else
    match key with
    | .nodeIDGenerator => .ok (db.nodeIDGen + inc, { db with nodeIDGen := db.nodeIDGen + inc })
    | .storeIDGenerator => .ok (db.storeIDGen + inc, { db with storeIDGen := db.storeIDGen + inc })

/-- allocateNodeID from node.go: increments the node id generator key to
allocate a new, unique node id. -/
def allocateNodeID (db : DB) : Except String (Int × DB) :=
  match db.inc .nodeIDGenerator 1 with
  | .error _ => .error "unable to allocate node ID"
  | .ok (r, db2) => .ok (r, db2)

/-- allocateStoreIDs from node.go: increments the store id generator key by
inc and returns the first ID of the contiguous allocated range, which is
the post-increment value minus inc plus 1. -/
def allocateStoreIDs (nodeID : Int) (inc : Int) (db : DB) : Except String (Int × DB) :=
  match db.inc .storeIDGenerator inc with
  | .error _ => .error "unable to allocate store IDs"
  | .ok (r, db2) => .ok (r - inc + 1, db2)

/-- Reasons for process-fatal halts (log.Fatal or panic) in node.go. -/
inductive Fatality where
  | negativeNodeID
  | nodeIDReassign
  | allocFailed
  | allocZeroID
  | gossipSetDescriptorFailed
  | gossipGetInfoFailed
  | gossipClusterIDMismatch
  | clusterIDMissingAtBootstrap
  | storeBootstrapFailed
  | storeStartFailed
  | errorUnexpectedlySet
deriving DecidableEq

/-- Ordinary (returned) errors of the initialization path in node.go. -/
inductive NErr where
  | noEngines
  | failedStartStore
  | unidentifiedStore
  | capacityQueryFailed
  | needsBootstrap
  | cannotJoinSelf
  | clusterIDMismatch (store : StoreIdent) (expected : String)
  | nodeIDMismatch (store : StoreIdent) (expected : Int)
  | gossipStorageFailed
deriving DecidableEq

/-- Result of a node operation: success, a returned error together with the
node state at the time of the error (the receiver keeps its mutations), or
a process-fatal halt. -/
inductive NRes (α : Type) where
  | ok : α → NRes α
  | err : NErr → NodeState → NRes α
  | fatal : Fatality → NRes α
deriving DecidableEq

/-- initNodeID from node.go: a negative id is fatal; once a NodeID is set,
id 0 is a silent no-op and any non-zero id is fatal; with no NodeID set,
id 0 allocates a fresh one (fatal on allocation failure or a zero result)
and a non-zero id is stored; in either setting case the descriptor is
gossiped, fatally halting if that fails. -/
def initNodeID (g : GossipState) (n : NodeState) (db : DB) (id : Int) : NRes (NodeState × DB) :=
  if id < 0 then .fatal .negativeNodeID
  else if 0 < n.nodeID then
    if id = 0 then .ok (n, db)
    else .fatal .nodeIDReassign
  else
    if id = 0 then
      match allocateNodeID db with
      | .error _ => .fatal .allocFailed
      | .ok (newID, db2) =>
        if newID = 0 then .fatal .allocZeroID
        else if g.setDescriptorOk then .ok ({ n with nodeID := newID }, db2)
        else .fatal .gossipSetDescriptorFailed
    else
      if g.setDescriptorOk then .ok ({ n with nodeID := id }, db)
      else .fatal .gossipSetDescriptorFailed

/-- VisitStores pass of validateStores from node.go: the first store seen
while the node ClusterID is empty seeds the node ClusterID and NodeID (via
initNodeID); each later store must match both exactly or the visit stops
with an error naming the offending store and the expected value. -/
def validateStoresLoop (g : GossipState) : NodeState → DB → List Store → NRes (NodeState × DB)
  | n, db, [] => .ok (n, db)
  | n, db, s :: rest =>
    if n.clusterID = "" then
      match initNodeID g { n with clusterID := s.ident.clusterID } db s.ident.nodeID with
      | .ok (n2, db2) => validateStoresLoop g n2 db2 rest
      | .err e ns => .err e ns
      | .fatal f => .fatal f
    else if n.clusterID ≠ s.ident.clusterID then
      .err (.clusterIDMismatch s.ident n.clusterID) n
    else if n.nodeID ≠ s.ident.nodeID then
      .err (.nodeIDMismatch s.ident n.nodeID) n
    else
      validateStoresLoop g n db rest

/-- validateStores from node.go: visits all registered stores, verifying
agreement on cluster and node IDs; the node ident is initialized from the
first visited store. -/
def validateStores (g : GossipState) (n : NodeState) (db : DB) : NRes (NodeState × DB) :=
  validateStoresLoop g n db n.stores

/-- connectGossip from node.go: after the gossip network connects, read the
cluster ID (a read failure is fatal); adopt it if the node has none, halt
fatally if the node already has a different one. -/
def connectGossip (g : GossipState) (n : NodeState) : NRes NodeState :=
  match g.clusterIDInfo with
  | none => .fatal .gossipGetInfoFailed
  | some gossipClusterID =>
    if n.clusterID = "" then .ok { n with clusterID := gossipClusterID }
    else if n.clusterID ≠ gossipClusterID then .fatal .gossipClusterIDMismatch
    else .ok n

/-- Engine loop of initStores from node.go: each engine is started; a
NotBootstrapped outcome (no persisted ident) sends it to the pending
bootstraps list, any other start failure aborts; a started store with an
incomplete ident aborts; a capacity query failure aborts; otherwise the
store is registered in the Store Registry. -/
def initStoresLoop : NodeState → List Engine → List Engine → NRes (NodeState × List Engine)
  | n, pending, [] => .ok (n, pending)
  | n, pending, e :: rest =>
    match e.ident with
    | none => initStoresLoop n (pending ++ [e]) rest
    | some ident =>
      if e.startOk = false then .err .failedStartStore n
      else if ident.clusterID = "" ∨ ident.nodeID = 0 then .err .unidentifiedStore n
      else if e.capacityOk = false then .err .capacityQueryFailed n
      else initStoresLoop { n with stores := n.stores ++ [{ ident := ident }] } pending rest

/-- Tail of initStores from node.go after the zero-stores resolver check:
validate the stores, set the registry as gossip storage, converge on the
gossiped cluster ID, allocate a NodeID if still unset, and return together
with the pending list handed to the asynchronous bootstrapStores task. -/
def initStoresAfterCheck (g : GossipState) (n : NodeState) (db : DB) (pending : List Engine) :
    NRes (NodeState × DB × List Engine) :=
  match validateStores g n db with
  | .err e ns => .err e ns
  | .fatal f => .fatal f
  | .ok (n2, db2) =>
    if g.setStorageOk = false then .err .gossipStorageFailed n2
    else
      match connectGossip g n2 with
      | .err e ns => .err e ns
      | .fatal f => .fatal f
      | .ok n3 =>
        match (if n3.nodeID = 0 then initNodeID g n3 db2 0 else .ok (n3, db2)) with
        | .err e ns => .err e ns
        | .fatal f => .fatal f
        | .ok (n4, db3) => .ok (n4, db3, pending)

/-- initStores from node.go: fails outright with no engines; starts each
engine (collecting unbootstrapped ones as pending); if the Store Registry
is then empty, inspects the resolver set (no resolvers means this node
needs bootstrapping, a single resolver that resolves to our own address
cannot be joined); then proceeds to validation, gossip storage wiring,
gossip convergence and NodeID allocation. -/
def initStores (g : GossipState) (n : NodeState) (db : DB) (engines : List Engine) :
    NRes (NodeState × DB × List Engine) :=
  if engines.isEmpty then .err .noEngines n
  else
    match initStoresLoop n [] engines with
    | .err e ns => .err e ns
    | .fatal f => .fatal f
    | .ok (n1, pending) =>
      match
        (if n1.stores.length = 0 then
          match g.resolvers with
          | [] => some NErr.needsBootstrap
          | [r] =>
            match r.address with
            | some a => if a = n1.address then some NErr.cannotJoinSelf else none
            | none => none
          | _ => none
        else none) with
      | some e => .err e n1
      | none => initStoresAfterCheck g n1 db pending

/-- Store loop of bootstrapStores from node.go: persist the running ident
into each pending store (Bootstrap then Start, both fatal on failure),
register it, and increment the ident StoreID for the next store. -/
def bootstrapStoresLoop : NodeState → StoreIdent → List Engine → NRes NodeState
  | n, _, [] => .ok n
  | n, sIdent, e :: rest =>
    if e.bootstrapOk = false then .fatal .storeBootstrapFailed
    else if e.startOk = false then .fatal .storeStartFailed
    else
      bootstrapStoresLoop { n with stores := n.stores ++ [{ ident := sIdent }] }
        { sIdent with storeID := sIdent.storeID + 1 } rest

/-- bootstrapStores from node.go: panics if the node ClusterID is missing,
makes a single allocator call reserving one store ID per pending store
(fatal on failure), and walks the pending list persisting consecutive
idents. The second component records the increment amounts of the
allocator calls performed. -/
def bootstrapStores (n : NodeState) (db : DB) (bootstraps : List Engine) :
    NRes (NodeState × DB) × List Int :=
  if n.clusterID = "" then (.fatal .clusterIDMissingAtBootstrap, [])
  else
    let inc : Int := bootstraps.length
    match allocateStoreIDs n.nodeID inc db with
    | .error _ => (.fatal .allocFailed, [inc])
    | .ok (firstID, db2) =>
      (match bootstrapStoresLoop n { clusterID := n.clusterID, nodeID := n.nodeID, storeID := firstID } bootstraps with
       | .ok n2 => .ok (n2, db2)
       | .err e ns => .err e ns
       | .fatal f => .fatal f,
       [inc])

/-- Engine loop of bootstrapCluster from node.go, carrying the engine index
and the throwaway in-process DB. For engine i: build the ident with the
generated cluster ID, NodeID 1 and StoreID i+1; refuse an engine already
carrying a cluster ID; Bootstrap it; for the first engine also write the
initial seed values; Start it; on the first engine allocate the node ID
and check it is 1; allocate one store ID and check it matches. Returns,
per engine, the persisted ident and whether the seed was written into it. -/
def bootstrapClusterLoop (clusterID : String) : Nat → DB → List Engine → Except String (List (StoreIdent × Bool))
  | _, _, [] => .ok []
  | i, db, e :: rest =>
    let sIdent : StoreIdent := { clusterID := clusterID, nodeID := 1, storeID := (i : Int) + 1 }
    let existing := (e.ident.map fun s => s.clusterID).getD ""
    if existing ≠ "" then .error "storage engine already belongs to a cluster"
    else if e.bootstrapOk = false then .error "bootstrap failed"
    else if i = 0 ∧ e.bootstrapRangeOk = false then .error "bootstrap range failed"
    else if e.startOk = false then .error "start failed"
    else
      let dbAfterNode : Except String DB :=
        if i = 0 then
          match allocateNodeID db with
          | .error msg => .error msg
          | .ok (nid, db2) =>
            if nid ≠ sIdent.nodeID then .error "expected to initialize node id allocator to 1"
            else .ok db2
        else .ok db
      match dbAfterNode with
      | .error msg => .error msg
      | .ok db2 =>
        match allocateStoreIDs sIdent.nodeID 1 db2 with
        | .error msg => .error msg
        | .ok (sid, db3) =>
          if sid ≠ sIdent.storeID then .error "expected to initialize store id allocator"
          else
            match bootstrapClusterLoop clusterID (i + 1) db3 rest with
            | .error msg => .error msg
            | .ok rs => .ok ((sIdent, i == 0) :: rs)

/-- bootstrapCluster from node.go: with a freshly generated cluster ID
(passed here as a parameter, standing for the random UUID) and a throwaway
in-process DB whose counters start at zero, bootstrap every engine in
order and return the cluster ID together with the per-engine records. -/
def bootstrapCluster (clusterID : String) (engines : List Engine) :
    Except String (String × List (StoreIdent × Bool)) :=
  match bootstrapClusterLoop clusterID 0 { nodeIDGen := 0, storeIDGen := 0, incFails := false } engines with
  | .error msg => .error msg
  | .ok rs => .ok (clusterID, rs)

/-- A batch response envelope: the embedded error field plus the remaining
payload of the response, modelled opaquely. -/
structure BatchResponse where
  error : Option String
  responses : List String
deriving DecidableEq

/-- Outcome of executeCmd: a returned response, the node-stopped rpc error
naming the node, or a process-fatal panic. -/
inductive ExecOutcome where
  | ok : BatchResponse → ExecOutcome
  | nodeStopped : Int → ExecOutcome
  | fatal : Fatality → ExecOutcome
deriving DecidableEq

/-- Observable result of executeCmd: the outcome, whether the Store
Registry routing function (Stores.Send) was invoked, and the errors of the
CallComplete events reported to the event feed. -/
structure ExecResult where
  outcome : ExecOutcome
  sendCalled : Bool
  feedEvents : List (Option String)
deriving DecidableEq

/-- executeCmd from node.go on the untraced request path: admission via the
stopper (a stopped node returns the node-stopped error without dispatch),
dispatch through Stores.Send, reset of the response envelope when an error
is reported, the ErrorUnexpectedlySet panic when the response carries an
embedded error at that point, the CallComplete feed event, and attachment
of the reported error to the response. The send argument is the pair of
response and separately reported error that Stores.Send would produce. -/
def executeCmd (stopped : Bool) (nodeID : Int) (send : BatchResponse × Option String) : ExecResult :=
  if stopped then { outcome := .nodeStopped nodeID, sendCalled := false, feedEvents := [] }
  else
    let br0 := send.1
    let pErr := send.2
    let br1 := if pErr.isSome then ({ error := none, responses := [] } : BatchResponse) else br0
    if br1.error.isSome then
      { outcome := .fatal .errorUnexpectedlySet, sendCalled := true, feedEvents := [] }
    else
      { outcome := .ok { br1 with error := pErr }, sendCalled := true, feedEvents := [pErr] }

/-- A blank, unformatted engine for which every operation succeeds. -/
def engBlank : Engine :=
  { ident := none, startOk := true, capacityOk := true, bootstrapOk := true, bootstrapRangeOk := true }

/-- A sample key-value state with both counters at zero and a working
increment operation. -/
def dbZero : DB := { nodeIDGen := 0, storeIDGen := 0, incFails := false }

/-- A sample gossip state with no resolvers and working operations. -/
def gossipZero : GossipState :=
  { resolvers := [], setStorageOk := true, clusterIDInfo := some "gc", setDescriptorOk := true }

/-- A sample node state with no identity assigned yet. -/
def nodeZero : NodeState := { clusterID := "", nodeID := 0, address := "addr1", stores := [] }

/-- C10: initStores called with an empty engine list fails immediately with
the no-engines error, with the node state untouched, so an engine-less
node never receives NeedsBootstrap or CannotJoinSelf and never reaches the
Bootstrap Protocol. -/
theorem initStores_no_engines (g : GossipState) (n : NodeState) (db : DB) :
    initStores g n db [] = .err .noEngines n := rfl

/-- C8: when the shutdown signal has fired before admission, executeCmd
returns the node-stopped error naming the node, with the Store Registry
routing function never invoked and no completion event on the feed. -/
theorem executeCmd_node_stopped (nid : Int) (send : BatchResponse × Option String) :
    executeCmd true nid send =
      { outcome := .nodeStopped nid, sendCalled := false, feedEvents := [] } := rfl

/-- C9 counterexample: when routing returns a response that carries an
embedded error together with a distinct separately reported error, the
dispatcher does not halt fatally; it resets the response and returns it
with the reported error attached. The claim as stated requires a fatal
halt at this input. -/
theorem executeCmd_embedded_error_cex :
    executeCmd false 1 ({ error := some "e1", responses := ["x"] }, some "p1") =
      { outcome := .ok { error := some "p1", responses := [] }, sendCalled := true,
        feedEvents := [some "p1"] } := rfl

/-- C9 (amended): whenever routing reports a non-nil error, the response
envelope is reset to empty before the error is attached, so no field of
the partial response is forwarded; the fatal ErrorUnexpectedlySet halt
fires exactly when routing reports no error but the returned response
carries an embedded error. -/
theorem executeCmd_error_reset_and_fatal (nid : Int) (br : BatchResponse) (p : String) :
    executeCmd false nid (br, some p) =
      { outcome := .ok { error := some p, responses := [] }, sendCalled := true,
        feedEvents := [some p] } ∧
    (∀ e, br.error = some e →
      executeCmd false nid (br, none) =
        { outcome := .fatal .errorUnexpectedlySet, sendCalled := true, feedEvents := [] }) := by
  constructor
  · rfl
  · intro e he
    simp [executeCmd, he]

theorem executeCmd_error_reset_and_fatal_witness :
    executeCmd false 1 ({ error := some "e1", responses := [] }, none) =
      { outcome := .fatal .errorUnexpectedlySet, sendCalled := true, feedEvents := [] } :=
  (executeCmd_error_reset_and_fatal 1 { error := some "e1", responses := [] } "zz").2 "e1" rfl

/-- C3 counterexample: with the node NodeID already set to 5, a second call
to initNodeID with the same value 5 halts fatally rather than being a
no-op as the claim states. -/
theorem initNodeID_same_id_fatal_cex :
    initNodeID gossipZero
      { clusterID := "c", nodeID := 5, address := "addr1", stores := [] } dbZero 5 =
      .fatal .nodeIDReassign := by
  decide

/-- C3 (amended): once the node NodeID is non-zero, a call to initNodeID
with 0 is a no-op, and a call with any non-zero id, the same value
included, halts the process fatally; NodeID is never reassigned by any
call that returns successfully. -/
theorem initNodeID_once_set (g : GossipState) (n : NodeState) (db : DB) (h : 0 < n.nodeID) :
    initNodeID g n db 0 = .ok (n, db) ∧
    (∀ id : Int, id ≠ 0 →
      initNodeID g n db id = .fatal (if id < 0 then .negativeNodeID else .nodeIDReassign)) ∧
    (∀ id n2 db2, initNodeID g n db id = .ok (n2, db2) → n2.nodeID = n.nodeID) := by
  refine ⟨?_, ?_, ?_⟩
  · simp [initNodeID, h]
  · intro id hid
    by_cases hneg : id < 0
    · simp [initNodeID, hneg]
    · simp [initNodeID, hneg, h, hid]
  · intro id n2 db2 hok
    by_cases h0 : id = 0
    · subst h0
      simp [initNodeID, h] at hok
      rw [← hok.1]
    · by_cases hneg : id < 0
      · simp [initNodeID, hneg] at hok
      · simp [initNodeID, hneg, h, h0] at hok

theorem initNodeID_once_set_witness :
    initNodeID gossipZero
      { clusterID := "c", nodeID := 5, address := "addr1", stores := [] } dbZero 0 =
      .ok ({ clusterID := "c", nodeID := 5, address := "addr1", stores := [] }, dbZero) :=
  (initNodeID_once_set gossipZero
    { clusterID := "c", nodeID := 5, address := "addr1", stores := [] } dbZero (by decide)).1

/-- C7: in gossip identity convergence, a node with an empty ClusterID
adopts the gossiped value; a node whose ClusterID is set and disagrees
with the gossiped value halts fatally and never continues; every
successful return carries exactly the gossiped cluster ID, which equals
the previous one whenever that was set, so at most one ClusterID is ever
live in the process. -/
theorem connectGossip_cluster_id (g : GossipState) (n : NodeState) (gcid : String)
    (h : g.clusterIDInfo = some gcid) :
    (n.clusterID = "" → connectGossip g n = .ok { n with clusterID := gcid }) ∧
    (n.clusterID ≠ "" → n.clusterID ≠ gcid →
      connectGossip g n = .fatal .gossipClusterIDMismatch) ∧
    (∀ n2, connectGossip g n = .ok n2 →
      n2.clusterID = gcid ∧ n2.nodeID = n.nodeID ∧ n2.stores = n.stores) := by
  refine ⟨?_, ?_, ?_⟩
  · intro he
    simp [connectGossip, h, he]
  · intro hne hdiff
    simp [connectGossip, h, hne, hdiff]
  · intro n2 hok
    by_cases he : n.clusterID = ""
    · simp [connectGossip, h, he] at hok
      subst hok
      exact ⟨rfl, rfl, rfl⟩
    · by_cases heq : n.clusterID = gcid
      · have hg : ¬ gcid = "" := by rw [← heq]; exact he
        simp [connectGossip, h, he, heq, hg] at hok
        subst hok
        exact ⟨heq, rfl, rfl⟩
      · simp [connectGossip, h, he, heq] at hok

theorem connectGossip_cluster_id_witness :
    connectGossip gossipZero nodeZero = .ok { nodeZero with clusterID := "gc" } :=
  (connectGossip_cluster_id gossipZero nodeZero "gc" rfl).1 rfl

/-- C5: allocateStoreIDs with count k returns the post-increment counter
value minus k plus 1, which is the old counter plus 1; a second sequential
successful call with count m returns the first result plus k, so the two
reserved ranges are contiguous and non-overlapping. -/
theorem allocateStoreIDs_sequential (db : DB) (nid1 nid2 k m : Int) (h : db.incFails = false) :
    allocateStoreIDs nid1 k db =
      .ok ((db.storeIDGen + k) - k + 1, { db with storeIDGen := db.storeIDGen + k }) ∧
    (db.storeIDGen + k) - k + 1 = db.storeIDGen + 1 ∧
    allocateStoreIDs nid2 m { db with storeIDGen := db.storeIDGen + k } =
      .ok ((db.storeIDGen + 1) + k, { db with storeIDGen := db.storeIDGen + k + m }) := by
  refine ⟨?_, by omega, ?_⟩
  · simp [allocateStoreIDs, DB.inc, h]
  · simp [allocateStoreIDs, DB.inc, h]
    omega

theorem allocateStoreIDs_sequential_witness :
    allocateStoreIDs 1 3 dbZero = .ok (1, { nodeIDGen := 0, storeIDGen := 3, incFails := false }) ∧
    allocateStoreIDs 1 2 { nodeIDGen := 0, storeIDGen := 3, incFails := false } =
      .ok (4, { nodeIDGen := 0, storeIDGen := 5, incFails := false }) := by
  have h := allocateStoreIDs_sequential dbZero 1 1 3 2 rfl
  exact ⟨h.1, h.2.2⟩

/-- Expected per-engine bootstrap records for engines i, i+1, ... : the
generated cluster ID, NodeID 1, StoreID index plus one, seed written only
at index 0. -/
def expectedBoot (cid : String) : Nat → Nat → List (StoreIdent × Bool)
  | _, 0 => []
  | i, Nat.succ k =>
    ({ clusterID := cid, nodeID := 1, storeID := (i : Int) + 1 }, i == 0) :: expectedBoot cid (i + 1) k

theorem expectedBoot_eq_range (cid : String) :
    ∀ (k i : Nat), expectedBoot cid i k =
      (List.range k).map fun j =>
        ({ clusterID := cid, nodeID := 1, storeID := ((i + j : Nat) : Int) + 1 }, i + j == 0) := by
  intro k
  induction k with
  | zero => intro i; rfl
  | succ k ih =>
    intro i
    rw [List.range_succ_eq_map]
    simp only [List.map_cons, List.map_map]
    rw [expectedBoot, ih (i + 1)]
    congr 1
    apply List.map_congr_left
    intro j _
    simp only [Function.comp_apply]
    have hj : i + Nat.succ j = i + 1 + j := by omega
    rw [hj]

theorem bootstrapClusterLoop_ok (cid : String) (engines : List Engine) :
    ∀ (i : Nat) (db : DB),
      db.incFails = false →
      db.storeIDGen = (i : Int) →
      (i = 0 → db.nodeIDGen = 0) →
      (∀ e ∈ engines,
        e.ident = none ∧ e.bootstrapOk = true ∧ e.bootstrapRangeOk = true ∧ e.startOk = true) →
      bootstrapClusterLoop cid i db engines = .ok (expectedBoot cid i engines.length) := by
  induction engines with
  | nil => intro i db _ _ _ _; rfl
  | cons e rest ih =>
    intro i db hf hs hn hgood
    obtain ⟨hei, heb, her, hest⟩ := hgood e (List.mem_cons_self e rest)
    have hgood2 : ∀ x ∈ rest,
        x.ident = none ∧ x.bootstrapOk = true ∧ x.bootstrapRangeOk = true ∧ x.startOk = true :=
      fun x hx => hgood x (List.mem_cons_of_mem e hx)
    obtain ⟨nodeg, storeg, incf⟩ := db
    simp only at hf hs hn
    subst hf
    subst hs
    by_cases hi : i = 0
    · subst hi
      have hn0 : nodeg = 0 := hn rfl
      subst hn0
      rw [bootstrapClusterLoop]
      simp only [hei, heb, her, hest, expectedBoot]
      simp [allocateNodeID, allocateStoreIDs, DB.inc]
      rw [ih 1 { nodeIDGen := 1, storeIDGen := 1, incFails := false } rfl (by simp)
        (by omega) hgood2]
    · rw [bootstrapClusterLoop]
      simp only [hei, heb, her, hest, expectedBoot]
      simp [allocateNodeID, allocateStoreIDs, DB.inc, hi]
      rw [ih (i + 1) { nodeIDGen := nodeg, storeIDGen := (i : Int) + 1, incFails := false } rfl
        (by push_cast; ring) (by omega) hgood2]

/-- C1: for every non-empty list of N unformatted engines on which every
storage operation succeeds, bootstrapCluster succeeds and produces one
generated ClusterID shared by all N persisted StoreIdents, NodeID 1 in
every StoreIdent, StoreIDs exactly 1..N assigned in engine order, and the
initial seed values written only into the first engine. -/
theorem bootstrapCluster_fresh_engines (cid : String) (engines : List Engine)
    (hne : engines ≠ [])
    (hgood : ∀ e ∈ engines,
      e.ident = none ∧ e.bootstrapOk = true ∧ e.bootstrapRangeOk = true ∧ e.startOk = true) :
    bootstrapCluster cid engines =
      .ok (cid, (List.range engines.length).map fun (j : Nat) =>
        ({ clusterID := cid, nodeID := 1, storeID := (j : Int) + 1 }, j == 0)) := by
  unfold bootstrapCluster
  rw [bootstrapClusterLoop_ok cid engines 0 _ rfl (by simp) (fun _ => rfl) hgood,
    expectedBoot_eq_range]
  simp only [Nat.zero_add]

theorem bootstrapCluster_fresh_engines_witness :
    bootstrapCluster "c1" [engBlank, engBlank] =
      .ok ("c1", [({ clusterID := "c1", nodeID := 1, storeID := 1 }, true),
                  ({ clusterID := "c1", nodeID := 1, storeID := 2 }, false)]) := by
  rw [bootstrapCluster_fresh_engines "c1" [engBlank, engBlank] (by decide) (by decide)]
  rfl

/-- Expected Store Registry additions of one bootstrapStores batch:
consecutive StoreIDs from a first allocated ID, all sharing one cluster
and node ID. -/
def expectedStores (cid : String) (nid : Int) : Int → Nat → List Store
  | _, 0 => []
  | sid, Nat.succ k =>
    { ident := { clusterID := cid, nodeID := nid, storeID := sid } } :: expectedStores cid nid (sid + 1) k

theorem expectedStores_eq_range (cid : String) (nid : Int) :
    ∀ (k : Nat) (sid : Int), expectedStores cid nid sid k =
      (List.range k).map fun (j : Nat) =>
        { ident := { clusterID := cid, nodeID := nid, storeID := sid + (j : Int) } } := by
  intro k
  induction k with
  | zero => intro sid; rfl
  | succ k ih =>
    intro sid
    rw [List.range_succ_eq_map]
    simp only [List.map_cons, List.map_map]
    rw [expectedStores, ih (sid + 1)]
    congr 1
    · simp
    apply List.map_congr_left
    intro j _
    simp only [Function.comp_apply, Store.mk.injEq, StoreIdent.mk.injEq, true_and]
    push_cast
    ring

theorem bootstrapStoresLoop_ok :
    ∀ (bootstraps : List Engine) (n : NodeState) (sIdent : StoreIdent),
      (∀ e ∈ bootstraps, e.bootstrapOk = true ∧ e.startOk = true) →
      bootstrapStoresLoop n sIdent bootstraps =
        .ok { n with stores :=
          n.stores ++ expectedStores sIdent.clusterID sIdent.nodeID sIdent.storeID bootstraps.length } := by
  intro bootstraps
  induction bootstraps with
  | nil => intro n sIdent _; simp [bootstrapStoresLoop, expectedStores]
  | cons e rest ih =>
    intro n sIdent hgood
    obtain ⟨heb, hes⟩ := hgood e (List.mem_cons_self e rest)
    have hgood2 : ∀ x ∈ rest, x.bootstrapOk = true ∧ x.startOk = true :=
      fun x hx => hgood x (List.mem_cons_of_mem e hx)
    rw [bootstrapStoresLoop]
    simp only [heb, hes, Bool.true_eq_false, if_false]
    rw [ih _ _ hgood2]
    simp [expectedStores, List.append_assoc]

/-- C4: for a non-empty pending list of k stores on a node with a non-empty
ClusterID, and a working allocator and storage operations, bootstrapStores
makes exactly one allocator call with count k, and with the allocator
returning first (the old counter plus one) it assigns StoreIDs first,
first+1, ..., first+k-1 to the pending stores in iteration order, each
persisted StoreIdent carrying the node ClusterID and NodeID, and each
store registered in the Store Registry. -/
theorem bootstrapStores_assigns_contiguous_ids (n : NodeState) (db : DB) (bootstraps : List Engine)
    (hcid : n.clusterID ≠ "")
    (hne : bootstraps ≠ [])
    (hdb : db.incFails = false)
    (hgood : ∀ e ∈ bootstraps, e.bootstrapOk = true ∧ e.startOk = true) :
    bootstrapStores n db bootstraps =
      (.ok ({ n with stores := n.stores ++ (List.range bootstraps.length).map fun (j : Nat) =>
                { ident := { clusterID := n.clusterID, nodeID := n.nodeID,
                             storeID := (db.storeIDGen + 1) + (j : Int) } } },
            { db with storeIDGen := db.storeIDGen + (bootstraps.length : Int) }),
       [(bootstraps.length : Int)]) := by
  unfold bootstrapStores
  rw [if_neg hcid]
  simp only [allocateStoreIDs, DB.inc, hdb, Bool.false_eq_true, if_false]
  have hfirst : db.storeIDGen + (bootstraps.length : Int) - bootstraps.length + 1 =
      db.storeIDGen + 1 := by ring
  rw [hfirst]
  rw [bootstrapStoresLoop_ok bootstraps n
    { clusterID := n.clusterID, nodeID := n.nodeID, storeID := db.storeIDGen + 1 } hgood]
  rw [expectedStores_eq_range]

theorem bootstrapStores_assigns_contiguous_ids_witness :
    bootstrapStores { clusterID := "c9", nodeID := 5, address := "addr1", stores := [] }
      { nodeIDGen := 1, storeIDGen := 9, incFails := false } [engBlank, engBlank, engBlank] =
      (.ok ({ clusterID := "c9", nodeID := 5, address := "addr1", stores :=
                [{ ident := { clusterID := "c9", nodeID := 5, storeID := 10 } },
                 { ident := { clusterID := "c9", nodeID := 5, storeID := 11 } },
                 { ident := { clusterID := "c9", nodeID := 5, storeID := 12 } }] },
            { nodeIDGen := 1, storeIDGen := 12, incFails := false }),
       [3]) := by
  rw [bootstrapStores_assigns_contiguous_ids _ _ _ (by decide) (by decide) rfl (by decide)]
  rfl

theorem validateStoresLoop_skip (g : GossipState) :
    ∀ (pre tail : List Store) (n : NodeState) (db : DB),
      n.clusterID ≠ "" →
      (∀ s ∈ pre, s.ident.clusterID = n.clusterID ∧ s.ident.nodeID = n.nodeID) →
      validateStoresLoop g n db (pre ++ tail) = validateStoresLoop g n db tail := by
  intro pre
  induction pre with
  | nil => intro tail n db _ _; rfl
  | cons s pre ih =>
    intro tail n db hcid hmatch
    obtain ⟨hsc, hsn⟩ := hmatch s (List.mem_cons_self s pre)
    have hmatch2 : ∀ x ∈ pre, x.ident.clusterID = n.clusterID ∧ x.ident.nodeID = n.nodeID :=
      fun x hx => hmatch x (List.mem_cons_of_mem s hx)
    rw [List.cons_append, validateStoresLoop]
    rw [if_neg hcid, if_neg (by rw [hsc]; simp), if_neg (by rw [hsn]; simp)]
    exact ih tail n db hcid hmatch2

/-- C6: validateStores on a registry whose first visited store has a
complete ident, on a node with no identity yet: the first store seeds the
node ClusterID and NodeID; if every later store matches both, the visit
succeeds with exactly that identity; the first later store disagreeing on
ClusterID or NodeID makes the call fail with a store-validation error
naming the offending store and the expected value, and the node ClusterID
in the returned state remains the value seeded from the first store. -/
theorem validateStores_seed_and_mismatch (g : GossipState) (n : NodeState) (db : DB)
    (s0 : Store) (rest : List Store)
    (hcid : n.clusterID = "") (hnid : n.nodeID = 0) (hdesc : g.setDescriptorOk = true)
    (hs0c : s0.ident.clusterID ≠ "") (hs0n : 0 < s0.ident.nodeID) :
    ((∀ s ∈ rest, s.ident.clusterID = s0.ident.clusterID ∧ s.ident.nodeID = s0.ident.nodeID) →
      validateStores g { n with stores := s0 :: rest } db =
        .ok ({ n with stores := (s0 :: rest), clusterID := s0.ident.clusterID,
                      nodeID := s0.ident.nodeID }, db)) ∧
    (∀ good bad more, rest = good ++ bad :: more →
      (∀ s ∈ good, s.ident.clusterID = s0.ident.clusterID ∧ s.ident.nodeID = s0.ident.nodeID) →
      bad.ident.clusterID ≠ s0.ident.clusterID ∨ bad.ident.nodeID ≠ s0.ident.nodeID →
      validateStores g { n with stores := s0 :: rest } db =
        .err (if bad.ident.clusterID ≠ s0.ident.clusterID
              then .clusterIDMismatch bad.ident s0.ident.clusterID
              else .nodeIDMismatch bad.ident s0.ident.nodeID)
             { n with stores := (s0 :: rest), clusterID := s0.ident.clusterID,
                      nodeID := s0.ident.nodeID }) := by
  have hnneg : ¬ s0.ident.nodeID < 0 := by omega
  have hnzero : ¬ s0.ident.nodeID = 0 := by omega
  have hseed : validateStores g { n with stores := s0 :: rest } db =
      validateStoresLoop g
        { n with stores := (s0 :: rest), clusterID := s0.ident.clusterID,
                 nodeID := s0.ident.nodeID } db rest := by
    rw [validateStores]
    show validateStoresLoop g _ db (s0 :: rest) = _
    rw [validateStoresLoop]
    rw [if_pos hcid]
    rw [show initNodeID g
        { n with stores := (s0 :: rest), clusterID := s0.ident.clusterID } db s0.ident.nodeID =
        .ok ({ n with stores := (s0 :: rest), clusterID := s0.ident.clusterID,
                      nodeID := s0.ident.nodeID }, db) from by
      rw [initNodeID]
      rw [if_neg hnneg]
      rw [if_neg (by simp [hnid]), if_neg hnzero, if_pos hdesc]]
  constructor
  · intro hmatch
    rw [hseed, ← List.append_nil rest,
      validateStoresLoop_skip g rest [] _ db (by simpa using hs0c) (by simpa using hmatch)]
    rfl
  · intro good bad more hrest hgoodm hbad
    subst hrest
    rw [hseed, validateStoresLoop_skip g good (bad :: more) _ db (by simpa using hs0c)
      (by simpa using hgoodm)]
    rw [validateStoresLoop]
    by_cases hbc : bad.ident.clusterID = s0.ident.clusterID
    · obtain hbn := hbad.resolve_left (by simpa using hbc)
      rw [if_neg (by simpa using hs0c), if_neg (by simp [hbc]), if_pos (by simpa using (Ne.symm hbn))]
      simp [hbc]
    · rw [if_neg (by simpa using hs0c), if_pos (by simpa using (Ne.symm hbc))]
      simp [hbc]

theorem validateStores_seed_and_mismatch_witness :
    validateStores gossipZero
      { clusterID := "", nodeID := 0, address := "addr1",
        stores := [{ ident := { clusterID := "c9", nodeID := 5, storeID := 7 } }] } dbZero =
      .ok ({ clusterID := "c9", nodeID := 5, address := "addr1",
             stores := [{ ident := { clusterID := "c9", nodeID := 5, storeID := 7 } }] }, dbZero) :=
  (validateStores_seed_and_mismatch gossipZero
    { clusterID := "", nodeID := 0, address := "addr1", stores := [] } dbZero
    { ident := { clusterID := "c9", nodeID := 5, storeID := 7 } } []
    rfl rfl rfl (by decide) (by decide)).1 (by simp)

theorem initNodeID_ne_err (g : GossipState) (n : NodeState) (db : DB) (id : Int)
    (e : NErr) (ns : NodeState) : initNodeID g n db id ≠ .err e ns := by
  unfold initNodeID
  by_cases h1 : id < 0
  · simp [h1]
  by_cases h2 : 0 < n.nodeID
  · by_cases h3 : id = 0 <;> simp [h1, h2, h3]
  by_cases h3 : id = 0
  · rcases halloc : allocateNodeID db with msg | ⟨nid, db2⟩
    · simp [h1, h2, h3, halloc]
    · by_cases h4 : nid = 0
      · simp [h1, h2, h3, halloc, h4]
      · by_cases h5 : g.setDescriptorOk <;> simp [h1, h2, h3, halloc, h4, h5]
  · by_cases h5 : g.setDescriptorOk <;> simp [h1, h2, h3, h5]

theorem connectGossip_ne_err (g : GossipState) (n : NodeState)
    (e : NErr) (ns : NodeState) : connectGossip g n ≠ .err e ns := by
  unfold connectGossip
  cases hg : g.clusterIDInfo with
  | none => simp
  | some gcid =>
    by_cases h1 : n.clusterID = ""
    · simp [h1]
    · by_cases h2 : n.clusterID ≠ gcid <;> simp [h1, h2]

theorem validateStoresLoop_err_shape (g : GossipState) :
    ∀ (stores : List Store) (n : NodeState) (db : DB) (e : NErr) (ns : NodeState),
      validateStoresLoop g n db stores = .err e ns →
      (∃ si exp, e = .clusterIDMismatch si exp) ∨ (∃ si exp, e = .nodeIDMismatch si exp) := by
  intro stores
  induction stores with
  | nil => intro n db e ns h; simp [validateStoresLoop] at h
  | cons s rest ih =>
    intro n db e ns h
    rw [validateStoresLoop] at h
    by_cases h1 : n.clusterID = ""
    · rw [if_pos h1] at h
      rcases hini : initNodeID g { n with clusterID := s.ident.clusterID } db s.ident.nodeID
        with ⟨n2, db2⟩ | ⟨e2, ns2⟩ | f
      · rw [hini] at h
        exact ih n2 db2 e ns h
      · exact absurd hini (initNodeID_ne_err _ _ _ _ _ _)
      · rw [hini] at h
        simp at h
    · rw [if_neg h1] at h
      by_cases h2 : n.clusterID ≠ s.ident.clusterID
      · rw [if_pos h2] at h
        simp only [NRes.err.injEq] at h
        exact Or.inl ⟨s.ident, n.clusterID, h.1.symm⟩
      · rw [if_neg h2] at h
        by_cases h3 : n.nodeID ≠ s.ident.nodeID
        · rw [if_pos h3] at h
          simp only [NRes.err.injEq] at h
          exact Or.inr ⟨s.ident, n.nodeID, h.1.symm⟩
        · rw [if_neg h3] at h
          exact ih n db e ns h

theorem initStoresAfterCheck_err_shape (g : GossipState) (n : NodeState) (db : DB)
    (pending : List Engine) (e : NErr) (ns : NodeState)
    (h : initStoresAfterCheck g n db pending = .err e ns) :
    e = .gossipStorageFailed ∨ (∃ si exp, e = .clusterIDMismatch si exp) ∨
      (∃ si exp, e = .nodeIDMismatch si exp) := by
  unfold initStoresAfterCheck at h
  split at h
  next e2 ns2 heq =>
    simp only [NRes.err.injEq] at h
    obtain ⟨he, _⟩ := h
    subst he
    exact Or.inr (validateStoresLoop_err_shape g n.stores n db e2 ns2 heq)
  next f heq => simp at h
  next n2 db2 heq =>
    by_cases hs : g.setStorageOk = false
    · rw [if_pos hs] at h
      simp only [NRes.err.injEq] at h
      exact Or.inl h.1.symm
    · rw [if_neg hs] at h
      split at h
      next e3 ns3 heq2 => exact absurd heq2 (connectGossip_ne_err _ _ _ _)
      next f2 heq2 => simp at h
      next n3 heq2 =>
        split at h
        next e4 ns4 heq3 =>
          by_cases hz : n3.nodeID = 0
          · rw [if_pos hz] at heq3
            exact absurd heq3 (initNodeID_ne_err _ _ _ _ _ _)
          · rw [if_neg hz] at heq3
            simp at heq3
        next f3 heq3 => simp at h
        next n4 db3 heq3 => simp at h

theorem initStoresLoop_all_pending :
    ∀ (engines pending : List Engine) (n : NodeState),
      (∀ e ∈ engines, e.ident = none) →
      initStoresLoop n pending engines = .ok (n, pending ++ engines) := by
  intro engines
  induction engines with
  | nil => intro pending n _; simp [initStoresLoop]
  | cons e rest ih =>
    intro pending n hall
    have he := hall e (List.mem_cons_self e rest)
    rw [initStoresLoop, he]
    rw [ih (pending ++ [e]) n (fun x hx => hall x (List.mem_cons_of_mem e hx))]
    simp

/-- C2: for every call to initStores that ends with zero stores registered
in the Store Registry (all engines pending, empty registry): with an empty
resolver set it fails with NeedsBootstrap; with exactly one resolver whose
address equals this node network address it fails with CannotJoinSelf;
with more than one resolver, or one resolver not equal to self, any error
it returns is neither of those two, so it proceeds past the bootstrap
check. -/
theorem initStores_zero_stores_resolver_check (g : GossipState) (n : NodeState) (db : DB)
    (engines : List Engine)
    (hne : engines ≠ [])
    (hempty : n.stores = [])
    (hpend : ∀ e ∈ engines, e.ident = none) :
    (g.resolvers = [] → initStores g n db engines = .err .needsBootstrap n) ∧
    (∀ r, g.resolvers = [r] → r.address = some n.address →
      initStores g n db engines = .err .cannotJoinSelf n) ∧
    ((2 ≤ g.resolvers.length ∨ ∃ r, g.resolvers = [r] ∧ r.address ≠ some n.address) →
      ∀ e ns, initStores g n db engines = .err e ns →
        e ≠ .needsBootstrap ∧ e ≠ .cannotJoinSelf) := by
  have hloop := initStoresLoop_all_pending engines [] n hpend
  have hnotempty : engines.isEmpty = false := by
    cases engines with
    | nil => exact absurd rfl hne
    | cons a l => rfl
  refine ⟨?_, ?_, ?_⟩
  · intro hres
    simp [initStores, hnotempty, hloop, hempty, hres]
  · intro r hres haddr
    simp [initStores, hnotempty, hloop, hempty, hres, haddr]
  · intro hcase e ns h
    have hAC : initStoresAfterCheck g n db engines = .err e ns := by
      rcases hcase with h2 | ⟨r, hres, haddr⟩
      · rcases hres2 : g.resolvers with _ | ⟨r1, _ | ⟨r2, rs⟩⟩
        · rw [hres2] at h2; simp at h2
        · rw [hres2] at h2; simp at h2
        · simpa [initStores, hnotempty, hloop, hempty, hres2] using h
      · cases haddrv : r.address with
        | none => simpa [initStores, hnotempty, hloop, hempty, hres, haddrv] using h
        | some a =>
          have hne2 : ¬ a = n.address := fun hEq => haddr (by rw [haddrv, hEq])
          simpa [initStores, hnotempty, hloop, hempty, hres, haddrv, hne2] using h
    rcases initStoresAfterCheck_err_shape g n db engines e ns hAC
      with h3 | ⟨si, exp, h3⟩ | ⟨si, exp, h3⟩ <;> subst h3 <;> exact ⟨by simp, by simp⟩

theorem initStores_zero_stores_resolver_check_witness :
    initStores gossipZero nodeZero dbZero [engBlank] = .err .needsBootstrap nodeZero :=
  (initStores_zero_stores_resolver_check gossipZero nodeZero dbZero [engBlank]
    (by decide) rfl (by decide)).1 rfl
